import Mathlib

/-!
Verification of the PDF Operation Orchestrator (`src/utils/pdfUtils.ts`).

The TypeScript module orchestrates two external libraries: the editing
library (pdf-lib: `PDFDocument.load/create/copyPages/addPage/save`,
page `getRotation`/`setRotation`, image embedding) and the rendering
library (pdf.js: `getDocument({data, password}).promise`), plus an
encryption helper (`encryptPDF`).  We embed the module shallowly:

* A `PDFDocument` is its list of pages; a page carries its stored
  rotation angle, its media-box size and the items drawn on it.
* Serialized output (`doc.save()`) is modelled by the `Bytes.saved`
  constructor, so that reloading a document the editor itself saved
  yields that document back — the round-trip contract of the editing
  library assumed by the spec's testable properties.
* The behaviour of the external libraries on raw input bytes is a
  parameter (`Env`): how the editing library load behaves on raw bytes,
  whether the rendering library is present on `window`, how its
  `getDocument` call resolves, how image embedding resolves, and what
  the encryption helper returns.  Library contracts are taken from the
  spec's External Interfaces section (the libraries are not part of the
  repository).
* Thrown JavaScript errors are `JsError` values (a `name` and a
  `message`); fallible code returns `Except JsError`.
-/

namespace PdfUtils

/-- A thrown JavaScript error: its `name` (e.g. `PasswordException`) and its
human-readable `message`.  A missing/undefined message is the empty string. -/
structure JsError where
  name : String
  message : String
deriving DecidableEq, Repr

/-- One item drawn on a page by `drawImage`: the embedded content and the
placement rectangle passed as `{x, y, width, height}`. -/
structure Drawn where
  content : Nat
  x : ℚ
  y : ℚ
  w : ℚ
  h : ℚ
deriving DecidableEq, Repr

/-- A page of an editing-library document: its stored rotation angle
(`getRotation().angle` / `setRotation(degrees ...)`), its media-box size and
the drawn items.  `copyPages` copies pages verbatim. -/
structure Page where
  rotation : Int
  width : ℚ
  height : ℚ
  drawn : List Drawn
deriving DecidableEq, Repr

instance : Inhabited Page := ⟨⟨0, 0, 0, []⟩⟩

/-- An editing-library document is its ordered list of pages. -/
structure PDFDocument where
  pages : List Page
deriving DecidableEq, Repr

/-- PDF byte buffers: either raw caller-supplied bytes, or the serialization
of a document the editing library itself saved (`doc.save()`). -/
inductive Bytes where
  | raw : List Nat → Bytes
  | saved : PDFDocument → Bytes
deriving DecidableEq, Repr

/-- `doc.save()`: serialize a document.  Modelled as the `saved` constructor,
so saved output is never empty and reloading it yields the document back. -/
def PDFDocument.save (doc : PDFDocument) : Bytes := Bytes.saved doc

/-- `encryptedBytes.length === 0`: only a raw empty buffer is empty; a saved
document always serializes to a nonempty PDF. -/
def Bytes.isEmpty : Bytes → Bool
  | .raw l => l.isEmpty
  | .saved _ => false

/-- A page as seen by the rendering library: base (scale-1) viewport size and
the rendered content; `getViewport({scale})` multiplies the size by `scale`. -/
structure RenderPage where
  width : ℚ
  height : ℚ
  content : Nat
deriving DecidableEq, Repr

/-- A document opened by the rendering library (`getDocument(...).promise`):
its pages in order 1..numPages. -/
structure PdfJsDoc where
  pages : List RenderPage
deriving DecidableEq, Repr

/-- The image object returned by `embedJpg`/`embedPng`: natural pixel width
and height, and the embedded content. -/
structure EmbImage where
  width : ℚ
  height : ℚ
  content : Nat
deriving DecidableEq, Repr

/-- A browser `File` as the orchestrator reads it: its name, declared MIME
type and content bytes (`readFileAsArrayBuffer` resolves to the content). -/
structure WFile where
  name : String
  type : String
  bytes : List Nat
deriving DecidableEq, Repr

/-- Behaviour of the external collaborators, per the spec's External
Interfaces contract.  `loadRaw` is the editing library's `PDFDocument.load`
on raw bytes (the orchestrator passes `{password}` options through, so the
model receives them); `pdfjsAvailable` is whether `window.pdfjsLib` is set;
`pdfjsOpen` is `getDocument({data, password}).promise`; `encrypt` is
`encryptPDF(bytes, userPw, ownerPw)`, returning `none` for a missing result;
`embedJpg`/`embedPng` embed image bytes; `renderThumb` is the
render-to-canvas-and-`toDataURL` pipeline for one page. -/
structure Env where
  loadRaw : List Nat → Option String → Except JsError PDFDocument
  pdfjsAvailable : Bool
  pdfjsOpen : Bytes → Option String → Except JsError PdfJsDoc
  encrypt : Bytes → String → String → Option Bytes
  embedJpg : List Nat → Except JsError EmbImage
  embedPng : List Nat → Except JsError EmbImage
  renderThumb : RenderPage → String

/-- `PDFDocument.load`: on the editor's own saved output it succeeds with the
saved document (round-trip contract); on raw bytes it behaves as `loadRaw`. -/
def pdfLibLoad (env : Env) : Bytes → Option String → Except JsError PDFDocument
  | .saved doc, _ => .ok doc
  | .raw bs, options => env.loadRaw bs options

/-- `sub.isPrefixOf`-based substring test on character lists. -/
def charsContain (sub : List Char) : List Char → Bool
  | [] => sub.isEmpty
  | c :: t => sub.isPrefixOf (c :: t) || charsContain sub t

/-- JavaScript `s.includes(sub)`. -/
def containsSubstr (s sub : String) : Bool :=
  charsContain sub.toList s.toList

/-- ASCII lower-casing of one character (the error messages inspected are
ASCII). -/
def lowerChar (c : Char) : Char :=
  if 65 ≤ c.toNat ∧ c.toNat ≤ 90 then Char.ofNat (c.toNat + 32) else c

/-- JavaScript `s.toLowerCase()` on ASCII strings. -/
def toLowerCase (s : String) : String :=
  ⟨s.toList.map lowerChar⟩

/-- Line 36: does the lower-cased message mention one of the three
encryption keywords. -/
def keywordHit (message : String) : Bool :=
  let msg := toLowerCase message
  containsSubstr msg "encrypted" || containsSubstr msg "password" ||
    containsSubstr msg "security handler"

/-- JavaScript truthiness of the optional password: `undefined` and the empty
string are falsy. -/
def passTruthy : Option String → Bool
  | none => false
  | some s => !s.isEmpty

/-- The sentinel error thrown at line 55 when the rendering library opens the
file with the supplied password but the editing library could not. -/
def unsupportedEncErr : JsError :=
  ⟨"Error", "The password is correct, but this PDF uses an encryption format (likely AES-256 R6) not supported by the editing engine."⟩

/-- The error thrown at line 64 when the rendering library reports a
password-specific failure. -/
def incorrectPwErr : JsError :=
  ⟨"Error", "Incorrect password. Please double-check your password."⟩

/-- The default fallback error thrown at line 71. -/
def genericEncErr : JsError :=
  ⟨"Error", "Incorrect password or the file is encrypted with an unsupported format."⟩

/-- `loadPdf` (lines 27–75).  Forwards the password only when truthy; on a
load failure whose message mentions an encryption keyword and with a truthy
password and the rendering library present, re-attempts opening via the
rendering library: a successful secondary open throws the sentinel
`unsupportedEncErr` (thrown inside the inner `try`, caught, recognised by its
"editing engine" marker and rethrown); a secondary error also carrying the
marker is rethrown as-is; a secondary `PasswordException` (or a message
containing `Password`) becomes `incorrectPwErr`; everything else falls
through to `genericEncErr`.  A failure without encryption keywords is
propagated unchanged. -/
def loadPdf (env : Env) (pdfBytes : Bytes) (password : Option String) :
    Except JsError PDFDocument :=
  let options := if passTruthy password then password else none
  match pdfLibLoad env pdfBytes options with
  | .ok doc => .ok doc
  | .error e =>
    if keywordHit e.message then
      if passTruthy password then
        if env.pdfjsAvailable then
          match env.pdfjsOpen pdfBytes password with
          | .ok _ => .error unsupportedEncErr
          | .error pdfJsErr =>
            if containsSubstr pdfJsErr.message "editing engine" then .error pdfJsErr
            else if pdfJsErr.name == "PasswordException" ||
                containsSubstr pdfJsErr.message "Password" then
              .error incorrectPwErr
            else .error genericEncErr
        else .error genericEncErr
      else .error genericEncErr
    else .error e

/-- `doc.copyPages(src, indices)`: copies of the pages of `src` at the given
indices, in that order; the editing library rejects an out-of-range index. -/
def copyPages (doc : PDFDocument) (indices : List Nat) : Except JsError (List Page) :=
  if indices.all (fun i => i < doc.pages.length) then
    .ok (indices.map fun i => doc.pages.getD i default)
  else
    .error ⟨"RangeError", "index out of range"⟩

/-- Error thrown at line 84 when `window.pdfjsLib` is absent. -/
def engineErr : JsError := ⟨"Error", "PDF engine not initialized."⟩

/-- `rasterizePdf` (lines 82–134): open via the rendering library (the call
site passes `pdfBytes.slice(0)`, a clone, so the caller's buffer stays
intact), render each page at scale 2 to a canvas, embed the resulting PNG,
and add a page of the descaled (original) size with the image drawn over the
whole page.  Pages are processed in order 1..numPages. -/
def rasterizePdf (env : Env) (pdfBytes : Bytes) (password : Option String) :
    Except JsError Bytes :=
  if env.pdfjsAvailable then
    match env.pdfjsOpen pdfBytes password with
    | .error e => .error e
    | .ok pdf =>
      let scale : ℚ := 2
      let pages := pdf.pages.map fun p =>
        let viewportWidth := p.width * scale
        let viewportHeight := p.height * scale
        let width := viewportWidth * (1 / scale)
        let height := viewportHeight * (1 / scale)
        Page.mk 0 width height [⟨p.content, 0, 0, width, height⟩]
      .ok (PDFDocument.mk pages).save
  else .error engineErr

/-- `getCleanPdfBytes` (lines 140–155): open via `loadPdf`, copy all pages by
index into a fresh document, serialize; on a failure carrying the
`editing engine` marker fall back to `rasterizePdf`, otherwise rethrow. -/
def getCleanPdfBytes (env : Env) (pdfBytes : Bytes) (password : Option String) :
    Except JsError Bytes :=
  let attempt : Except JsError Bytes :=
    match loadPdf env pdfBytes password with
    | .error e => .error e
    | .ok srcDoc =>
      match copyPages srcDoc (List.range srcDoc.pages.length) with
      | .error e => .error e
      | .ok copiedPages => .ok (PDFDocument.mk copiedPages).save
  match attempt with
  | .ok r => .ok r
  | .error e =>
    if containsSubstr e.message "editing engine" then
      rasterizePdf env pdfBytes password
    else .error e

/-- `rotatePdf` (lines 222–230): open via `loadPdf`; for every page read its
current stored rotation angle and set the page's rotation to that angle plus
the delta; serialize. -/
def rotatePdf (env : Env) (pdfBytes : Bytes) (rotation : Int)
    (password : Option String) : Except JsError Bytes :=
  match loadPdf env pdfBytes password with
  | .error e => .error e
  | .ok pdfDoc =>
    let pages := pdfDoc.pages.map fun page =>
      let currentRotation := page.rotation
      { page with rotation := currentRotation + rotation }
    .ok (PDFDocument.mk pages).save

/-- `organizePdf` (lines 232–248): open via `loadPdf`, copy the source pages
at the caller's (0-indexed) `pageOrder`, and for each copied page at output
position `index` add `rotations[index] || 0` to its pre-existing rotation
(the `if rotation !== 0` guard skips the no-op set); serialize.  The
rotation map is modelled as a partial function, `none` standing for a
missing key. -/
def organizePdf (env : Env) (pdfBytes : Bytes) (pageOrder : List Nat)
    (rotations : Nat → Option Int) (password : Option String) :
    Except JsError Bytes :=
  match loadPdf env pdfBytes password with
  | .error e => .error e
  | .ok pdfDoc =>
    match copyPages pdfDoc pageOrder with
    | .error e => .error e
    | .ok copiedPages =>
      let pages := copiedPages.enum.map fun ip =>
        let index := ip.1
        let page := ip.2
        let rotation := (rotations index).getD 0
        if rotation ≠ 0 then { page with rotation := page.rotation + rotation }
        else page
      .ok (PDFDocument.mk pages).save

/-- The loop of `mergePdfs` (lines 212–218): load each input with
`PDFDocument.load` directly (no password parameter), copy all of its pages by
`getPageIndices()` and append them to the output document; a load failure
propagates raw. -/
def mergeLoop (env : Env) : List Bytes → List Page → Except JsError (List Page)
  | [], acc => .ok acc
  | fileBytes :: rest, acc =>
    match pdfLibLoad env fileBytes none with
    | .error e => .error e
    | .ok pdf =>
      match copyPages pdf (List.range pdf.pages.length) with
      | .error e => .error e
      | .ok copiedPages => mergeLoop env rest (acc ++ copiedPages)

/-- `mergePdfs` (lines 210–220): fold every input into one fresh document and
serialize it. -/
def mergePdfs (env : Env) (files : List Bytes) : Except JsError Bytes :=
  match mergeLoop env files [] with
  | .error e => .error e
  | .ok pages => .ok (PDFDocument.mk pages).save

/-- Error thrown at line 258 on a missing or empty encryption result. -/
def encryptFailedErr : JsError := ⟨"Error", "Encryption failed: Output is empty."⟩

/-- `protectPdf` (lines 250–262): normalize the input to clean bytes with the
optional old password, then call the encryption helper with the new password
as both user and owner password; a missing (`none`) or empty result is a hard
failure, otherwise the encrypted bytes are returned. -/
def protectPdf (env : Env) (pdfBytes : Bytes) (password : String)
    (oldPassword : Option String) : Except JsError Bytes :=
  match getCleanPdfBytes env pdfBytes oldPassword with
  | .error e => .error e
  | .ok cleanBytes =>
    match env.encrypt cleanBytes password password with
    | none => .error encryptFailedErr
    | some encryptedBytes =>
      if encryptedBytes.isEmpty then .error encryptFailedErr
      else .ok encryptedBytes

/-- The page-size choice of the image-to-PDF tool (lines 18–21). -/
inductive PageSizeOpt where
  | A4
  | Letter
  | Fit
deriving DecidableEq, Repr

/-- The orientation choice of the image-to-PDF tool (lines 18–21). -/
inductive OrientationOpt where
  | Portrait
  | Landscape
deriving DecidableEq, Repr

/-- `ImageToPdfOptions` (lines 18–21). -/
structure ImageToPdfOptions where
  pageSize : PageSizeOpt
  orientation : OrientationOpt
deriving DecidableEq, Repr

/-- `PageSizes.Letter` of the editing library, in points (width, height). -/
def letterSize : ℚ × ℚ := (612, 792)

/-- `PageSizes.A4` of the editing library, in points (width, height). -/
def a4Size : ℚ × ℚ := (595.28, 841.89)

/-- JavaScript `s.endsWith(suffix)`. -/
def endsWithStr (s suffix : String) : Bool :=
  suffix.toList.isSuffixOf s.toList

/-- Lines 163–174: which embedder (if any) handles a file, and its outcome:
JPEG by MIME type or a `.jpg`/`.jpeg` name, else PNG by MIME type or a
`.png` name; any other file is skipped (`none`), and a failed embed
(`.error`) is caught with a warning and the file skipped as well. -/
def embedResult (env : Env) (file : WFile) : Option (Except JsError EmbImage) :=
  if file.type == "image/jpeg" || endsWithStr file.name ".jpg" ||
      endsWithStr file.name ".jpeg" then
    some (env.embedJpg file.bytes)
  else if file.type == "image/png" || endsWithStr file.name ".png" then
    some (env.embedPng file.bytes)
  else none

/-- Lines 185–187: the chosen standard size (`Letter` or else `A4`) in the
requested orientation, as (pageWidth, pageHeight). -/
def pageDims (options : ImageToPdfOptions) : ℚ × ℚ :=
  let size := if options.pageSize = .Letter then letterSize else a4Size
  (if options.orientation = .Portrait then size.1 else size.2,
   if options.orientation = .Portrait then size.2 else size.1)

/-- Lines 176–205 for one embedded image: for `Fit` the page dimensions are
the image's native size; otherwise the standard size in the requested
orientation (`pageDims`), with the image scaled by
`Math.min(availW/imgW, availH/imgH, 1)` to fit inside a 20-point margin.
The image is drawn centered at `((pageW - w)/2, (pageH - h)/2)` (lines
202–205, common to both branches; in the `Fit` branch this places the image
at the origin). -/
def processImage (image : EmbImage) (options : ImageToPdfOptions) : Page :=
  let imgWidth := image.width
  let imgHeight := image.height
  if options.pageSize = .Fit then
    let pageWidth := imgWidth
    let pageHeight := imgHeight
    let x := (pageWidth - imgWidth) / 2
    let y := (pageHeight - imgHeight) / 2
    ⟨0, pageWidth, pageHeight, [⟨image.content, x, y, imgWidth, imgHeight⟩]⟩
  else
    let pageWidth := (pageDims options).1
    let pageHeight := (pageDims options).2
    let margin : ℚ := 20
    let availableWidth := pageWidth - margin * 2
    let availableHeight := pageHeight - margin * 2
    let scale := min (min (availableWidth / imgWidth) (availableHeight / imgHeight)) 1
    let w := imgWidth * scale
    let h := imgHeight * scale
    let x := (pageWidth - w) / 2
    let y := (pageHeight - h) / 2
    ⟨0, pageWidth, pageHeight, [⟨image.content, x, y, w, h⟩]⟩

/-- `createPdfFromImages` (lines 157–208): fold over the input files, skip
non-JPEG/PNG files and failed embeds (both `continue`), add one page per
embedded image, serialize.  Every failure site inside the loop is caught, so
the function always returns the serialized document. -/
def createPdfFromImages (env : Env) (files : List WFile)
    (options : ImageToPdfOptions) : Bytes :=
  (PDFDocument.mk (files.foldl (fun acc file =>
    match embedResult env file with
    | some (.ok image) => acc ++ [processImage image options]
    | _ => acc) [])).save

/-- `checkPdfPassword` (lines 433–447): with no rendering library on the
window, `false`; otherwise open the file's bytes with no password and report
`true` exactly when a `PasswordException` is raised — a successful open or
any other error is `false`. -/
def checkPdfPassword (env : Env) (file : WFile) : Bool :=
  if env.pdfjsAvailable then
    match env.pdfjsOpen (Bytes.raw file.bytes) none with
    | .ok _ => false
    | .error e => e.name == "PasswordException"
  else false

/-- A `Uint8Array` together with the state of its underlying `ArrayBuffer`:
handing it as `data` to the rendering library's `getDocument` transfers the
buffer to the worker, detaching (invalidating) it in the caller. -/
structure JsBuffer where
  data : Bytes
  detached : Bool
deriving DecidableEq, Repr

/-- `generatePdfThumbnails` (lines 398–431), tracking the caller's buffer.
Unlike `loadPdf` (line 48) and `rasterizePdf` (line 87), which pass
`pdfBytes.slice(0)` — a clone — to `getDocument` expressly to avoid buffer
detachment, this function passes the caller's buffer itself
(`data: pdfBytes`, line 404), so the transfer detaches it.  On success each
page is rendered at scale 0.5 and encoded as a data URL; on any failure an
empty list is returned.  The pair holds the result and the caller's buffer
as it stands after the call. -/
def generatePdfThumbnails (env : Env) (pdfBytes : JsBuffer)
    (password : Option String) : List String × JsBuffer :=
  if env.pdfjsAvailable then
    let callerBufferAfter : JsBuffer := { pdfBytes with detached := true }
    match env.pdfjsOpen pdfBytes.data password with
    | .ok pdf => (pdf.pages.map env.renderThumb, callerBufferAfter)
    | .error _ => ([], callerBufferAfter)
  else ([], pdfBytes)

/-- Buffer-lifecycle view of `rasterizePdf` (lines 82–90): line 87 passes
`pdfBytes.slice(0)`, a fresh copy, to `getDocument`, so the clone — not the
caller's buffer — is transferred, and the caller's buffer survives intact. -/
def rasterizePdfBuf (env : Env) (pdfBytes : JsBuffer)
    (password : Option String) : Except JsError Bytes × JsBuffer :=
  let clone : JsBuffer := ⟨pdfBytes.data, false⟩
  (rasterizePdf env clone.data password, pdfBytes)

/-- Concrete environment exercising the C1 branches: the editing library
rejects every raw input with an `encrypted` message, the rendering library is
available and opens everything. -/
def envUnsup : Env where
  loadRaw := fun _ _ => .error ⟨"Error", "encrypted"⟩
  pdfjsAvailable := true
  pdfjsOpen := fun _ _ => .ok ⟨[]⟩
  encrypt := fun _ _ _ => none
  embedJpg := fun _ => .error ⟨"Error", "bad jpg"⟩
  embedPng := fun _ => .error ⟨"Error", "bad png"⟩
  renderThumb := fun _ => "data:image/png;base64"

/-- A concrete two-page document: one upright letter-sized page, one rotated
90 degrees. -/
def docA : PDFDocument := ⟨[⟨0, 612, 792, []⟩, ⟨90, 612, 792, []⟩]⟩

/-- Environment in which the editing library opens every raw input as `docA`
and the rendering library is absent. -/
def envPlain : Env where
  loadRaw := fun _ _ => .ok docA
  pdfjsAvailable := false
  pdfjsOpen := fun _ _ => .error ⟨"Error", "worker missing"⟩
  encrypt := fun _ _ _ => none
  embedJpg := fun _ => .error ⟨"Error", "bad jpg"⟩
  embedPng := fun _ => .error ⟨"Error", "bad png"⟩
  renderThumb := fun _ => "data:image/png;base64"

/-- A concrete three-page document. -/
def docB : PDFDocument := ⟨[⟨0, 595, 842, []⟩, ⟨180, 595, 842, []⟩, ⟨270, 595, 842, []⟩]⟩

/-- Environment whose editing library opens `[0]` as the two-page `docA` and
everything else as the three-page `docB`. -/
def envMerge : Env where
  loadRaw := fun bs _ => if bs = [0] then .ok docA else .ok docB
  pdfjsAvailable := false
  pdfjsOpen := fun _ _ => .error ⟨"Error", "worker missing"⟩
  encrypt := fun _ _ _ => none
  embedJpg := fun _ => .error ⟨"Error", "bad jpg"⟩
  embedPng := fun _ => .error ⟨"Error", "bad png"⟩
  renderThumb := fun _ => "data:image/png;base64"

/-- Environment like `envPlain` but with an encryption helper returning the
nonempty buffer `[9]`. -/
def envProtect : Env where
  loadRaw := fun _ _ => .ok docA
  pdfjsAvailable := false
  pdfjsOpen := fun _ _ => .error ⟨"Error", "worker missing"⟩
  encrypt := fun _ _ _ => some (Bytes.raw [9])
  embedJpg := fun _ => .error ⟨"Error", "bad jpg"⟩
  embedPng := fun _ => .error ⟨"Error", "bad png"⟩
  renderThumb := fun _ => "data:image/png;base64"

/-- A file of a type the tool skips. -/
def txtFile : WFile := ⟨"notes.txt", "text/plain", [1]⟩

/-- A PNG file whose embedding fails in `envPlain`. -/
def badPng : WFile := ⟨"pic.png", "image/png", [2]⟩

end PdfUtils

namespace PdfUtils

/-- In-range index lists make `copyPages` succeed with the indexed pages. -/
theorem copyPages_ok (doc : PDFDocument) (indices : List Nat)
    (h : ∀ i ∈ indices, i < doc.pages.length) :
    copyPages doc indices = .ok (indices.map fun i => doc.pages.getD i default) := by
  unfold copyPages
  rw [if_pos]
  simp only [List.all_eq_true, decide_eq_true_eq]
  exact h

/-- Copying every index of a document reproduces its page list. -/
theorem copyPages_range (doc : PDFDocument) :
    copyPages doc (List.range doc.pages.length) = .ok doc.pages := by
  unfold copyPages
  rw [if_pos]
  · congr 1
    apply List.ext_getElem
    · simp
    · intro i h1 h2
      simp only [List.getElem_map, List.getElem_range]
      exact List.getD_eq_getElem doc.pages default h2
  · simp only [List.all_eq_true, List.mem_range, decide_eq_true_eq]
    exact fun i h => h

/-- C1: when the primary open fails, `loadPdf` resolves the failure into
exactly one of: the original error (no encryption keyword in the message);
the distinct unsupported-encryption-but-correct-password sentinel (truthy
password, rendering library opens the bytes); the incorrect-password error
(rendering library raises a password-specific error); or the generic
incorrect-password-or-unsupported-encryption error (no password, library
unavailable, or inconclusive secondary check). -/
theorem c1_loadPdf_failure_discrimination (env : Env) (pdfBytes : Bytes)
    (password : Option String) (e : JsError)
    (hfail : pdfLibLoad env pdfBytes
      (if passTruthy password then password else none) = .error e) :
    (keywordHit e.message = false → loadPdf env pdfBytes password = .error e) ∧
    (keywordHit e.message = true → passTruthy password = true →
      env.pdfjsAvailable = true →
      ((∃ d, env.pdfjsOpen pdfBytes password = .ok d) →
        loadPdf env pdfBytes password = .error unsupportedEncErr) ∧
      (∀ pe, env.pdfjsOpen pdfBytes password = .error pe →
        containsSubstr pe.message "editing engine" = false →
        (pe.name = "PasswordException" ∨ containsSubstr pe.message "Password" = true) →
        loadPdf env pdfBytes password = .error incorrectPwErr) ∧
      (∀ pe, env.pdfjsOpen pdfBytes password = .error pe →
        containsSubstr pe.message "editing engine" = false →
        pe.name ≠ "PasswordException" → containsSubstr pe.message "Password" = false →
        loadPdf env pdfBytes password = .error genericEncErr)) ∧
    (keywordHit e.message = true →
      (passTruthy password = false ∨ env.pdfjsAvailable = false) →
      loadPdf env pdfBytes password = .error genericEncErr) := by
  simp only [loadPdf]
  rw [hfail]
  refine ⟨fun hk => by simp [hk], fun hk hp ha => ?_, fun hk hor => ?_⟩
  · refine ⟨fun ⟨d, hd⟩ => by simp [hk, hp, ha, hd], fun pe hpe hm hname => ?_,
      fun pe hpe hm hn1 hn2 => ?_⟩
    · rcases hname with hname | hname <;>
        simp [hk, hp, ha, hpe, hm, hname]
    · simp [hk, hp, ha, hpe, hm, hn1, hn2]
  · rcases hor with hor | hor <;> simp [hk, hor]

/-- Witness for C1 at a concrete input: keyword-carrying primary failure,
truthy password, secondary open succeeds, so the sentinel is signalled. -/
theorem c1_loadPdf_failure_discrimination_witness :
    loadPdf envUnsup (Bytes.raw [1]) (some "pw") = .error unsupportedEncErr :=
  ((c1_loadPdf_failure_discrimination envUnsup (Bytes.raw [1]) (some "pw")
      ⟨"Error", "encrypted"⟩ rfl).2.1 (by decide) rfl rfl).1 ⟨⟨[]⟩, rfl⟩

/-- The sentinel error carries the `editing engine` marker the normalizer
tests for at line 150. -/
theorem sentinel_has_marker :
    containsSubstr unsupportedEncErr.message "editing engine" = true := by decide

/-- C2: the Clean-Bytes Normalizer returns the rasterization fallback exactly
on the loader's unsupported-encryption-but-correct-password signal; any other
failure of the open-copy-serialize path propagates unchanged; on success it
returns a freshly created document holding copies of all source pages in
original index order. -/
theorem c2_getCleanPdfBytes_cases (env : Env) (pdfBytes : Bytes)
    (password : Option String) :
    (∀ doc, loadPdf env pdfBytes password = .ok doc →
      getCleanPdfBytes env pdfBytes password = .ok (PDFDocument.mk doc.pages).save) ∧
    (loadPdf env pdfBytes password = .error unsupportedEncErr →
      getCleanPdfBytes env pdfBytes password = rasterizePdf env pdfBytes password) ∧
    (∀ e, loadPdf env pdfBytes password = .error e →
      containsSubstr e.message "editing engine" = false →
      getCleanPdfBytes env pdfBytes password = .error e) := by
  refine ⟨fun doc hdoc => ?_, fun hun => ?_, fun e he hm => ?_⟩
  · simp [getCleanPdfBytes, hdoc, copyPages_range]
  · simp [getCleanPdfBytes, hun, sentinel_has_marker]
  · simp [getCleanPdfBytes, he, hm]

/-- Witness for C2 at a concrete input: a successful open copies both pages
in order into a fresh document. -/
theorem c2_getCleanPdfBytes_cases_witness :
    getCleanPdfBytes envPlain (Bytes.raw [1]) none =
      .ok (PDFDocument.mk docA.pages).save :=
  (c2_getCleanPdfBytes_cases envPlain (Bytes.raw [1]) none).1 docA rfl

/-- C3: Rotate adds the delta to every page's current stored rotation angle,
so on a loadable document with at least one page, rotating by `r` and then
by `-r` restores every page's rotation angle modulo 360. -/
theorem c3_rotatePdf_roundtrip (env : Env) (pdfBytes : Bytes)
    (doc : PDFDocument) (r : Int)
    (hload : pdfLibLoad env pdfBytes none = .ok doc)
    (_hne : doc.pages ≠ []) :
    ∃ mid final : PDFDocument,
      rotatePdf env pdfBytes r none = .ok mid.save ∧
      rotatePdf env mid.save (-r) none = .ok final.save ∧
      final.pages.length = doc.pages.length ∧
      (∀ (i : Nat) (hi : i < mid.pages.length) (hj : i < doc.pages.length),
        (mid.pages.get ⟨i, hi⟩).rotation =
          (doc.pages.get ⟨i, hj⟩).rotation + r) ∧
      ∀ (i : Nat) (hi : i < final.pages.length) (hj : i < doc.pages.length),
        (final.pages.get ⟨i, hi⟩).rotation % 360 =
          (doc.pages.get ⟨i, hj⟩).rotation % 360 := by
  refine ⟨⟨doc.pages.map fun p => { p with rotation := p.rotation + r }⟩,
    ⟨(doc.pages.map fun p => { p with rotation := p.rotation + r }).map
        fun p => { p with rotation := p.rotation + -r }⟩, ?_, ?_, ?_, ?_, ?_⟩
  · simp [rotatePdf, loadPdf, passTruthy, hload, PDFDocument.save]
  · simp [rotatePdf, loadPdf, passTruthy, pdfLibLoad, PDFDocument.save]
  · simp
  · intro i hi hj
    simp [List.get_eq_getElem]
  · intro i hi hj
    simp only [List.get_eq_getElem, List.getElem_map]
    omega

/-- Witness for C3 at a concrete input: `envPlain` opens `docA` (two pages,
rotations 0 and 90); rotating by 90 then by -90 restores both. -/
theorem c3_rotatePdf_roundtrip_witness :
    ∃ mid final : PDFDocument,
      rotatePdf envPlain (Bytes.raw [1]) 90 none = .ok mid.save ∧
      rotatePdf envPlain mid.save (-90) none = .ok final.save ∧
      final.pages.length = docA.pages.length ∧
      (∀ (i : Nat) (hi : i < mid.pages.length) (hj : i < docA.pages.length),
        (mid.pages.get ⟨i, hi⟩).rotation =
          (docA.pages.get ⟨i, hj⟩).rotation + 90) ∧
      ∀ (i : Nat) (hi : i < final.pages.length) (hj : i < docA.pages.length),
        (final.pages.get ⟨i, hi⟩).rotation % 360 =
          (docA.pages.get ⟨i, hj⟩).rotation % 360 :=
  c3_rotatePdf_roundtrip envPlain (Bytes.raw [1]) docA 90 rfl (by decide)

/-- C4: Organize yields one output page per supplied index (omissions and
repeats included), the k-th output page being a copy of the source page at
the k-th index, with the rotation-map entry for output position k added to
that page's pre-existing rotation. -/
theorem c4_organizePdf_spec (env : Env) (pdfBytes : Bytes)
    (pageOrder : List Nat) (rotations : Nat → Option Int)
    (password : Option String) (doc : PDFDocument)
    (hload : loadPdf env pdfBytes password = .ok doc)
    (hrange : ∀ i ∈ pageOrder, i < doc.pages.length) :
    ∃ out : PDFDocument,
      organizePdf env pdfBytes pageOrder rotations password = .ok out.save ∧
      out.pages.length = pageOrder.length ∧
      ∀ (k : Nat) (hk : k < pageOrder.length) (ho : k < out.pages.length),
        out.pages.get ⟨k, ho⟩ =
          (fun src => { src with rotation := src.rotation + (rotations k).getD 0 })
            (doc.pages.getD (pageOrder.get ⟨k, hk⟩) default) := by
  refine ⟨⟨((pageOrder.map fun i => doc.pages.getD i default).enum.map fun ip =>
      if (rotations ip.1).getD 0 ≠ 0 then
        { ip.2 with rotation := ip.2.rotation + (rotations ip.1).getD 0 }
      else ip.2)⟩, ?_, ?_, ?_⟩
  · simp only [organizePdf, hload, copyPages_ok doc pageOrder hrange,
      PDFDocument.save]
  · simp [List.enum_length]
  · intro k hk ho
    simp only [List.get_eq_getElem, List.getElem_map, List.getElem_enum]
    by_cases h : (rotations k).getD 0 = 0
    · simp [h]
    · simp [h]

/-- When every input loads to the corresponding document, the merge loop
appends all their pages, in input order then in-document order, after the
accumulator. -/
theorem mergeLoop_ok (env : Env) {files : List Bytes} {docs : List PDFDocument}
    (hload : List.Forall₂ (fun fb d => pdfLibLoad env fb none = .ok d) files docs) :
    ∀ acc, mergeLoop env files acc =
      .ok (acc ++ (docs.map PDFDocument.pages).flatten) := by
  induction hload with
  | nil => intro acc; simp [mergeLoop]
  | cons h _ ih =>
    intro acc
    simp [mergeLoop, h, copyPages_range, ih, List.append_assoc]

/-- C5: Merge of unencrypted inputs yields one document whose pages are the
concatenation of the inputs' pages in input-file order then in-document
order, so its page count is the sum of the inputs' page counts. -/
theorem c5_mergePdfs_spec (env : Env) (files : List Bytes)
    (docs : List PDFDocument)
    (hload : List.Forall₂ (fun fb d => pdfLibLoad env fb none = .ok d) files docs) :
    mergePdfs env files =
      .ok (PDFDocument.mk ((docs.map PDFDocument.pages).flatten)).save ∧
    ((docs.map PDFDocument.pages).flatten).length =
      (docs.map fun d => d.pages.length).sum := by
  constructor
  · simp [mergePdfs, mergeLoop_ok env hload []]
  · simp [List.length_flatten, List.map_map, Function.comp_def]

/-- Witness for C5 at a concrete input: merging the 2-page `docA` with the
3-page `docB` yields their 5 pages in order A1 A2 B1 B2 B3. -/
theorem c5_mergePdfs_spec_witness :
    mergePdfs envMerge [Bytes.raw [0], Bytes.raw [1]] =
      .ok (PDFDocument.mk (([docA, docB].map PDFDocument.pages).flatten)).save ∧
    (([docA, docB].map PDFDocument.pages).flatten).length =
      ([docA, docB].map fun d => d.pages.length).sum :=
  c5_mergePdfs_spec envMerge [Bytes.raw [0], Bytes.raw [1]] [docA, docB]
    (List.Forall₂.cons rfl (List.Forall₂.cons rfl List.Forall₂.nil))

/-- C6: Protect normalizes with the old password and encrypts the clean bytes
with the new password used as both user and owner password; it hard-fails
with the empty-output error exactly when the encryption step yields a missing
or empty result, and otherwise returns the encrypted bytes; a normalization
failure propagates. -/
theorem c6_protectPdf_spec (env : Env) (pdfBytes : Bytes) (password : String)
    (oldPassword : Option String) :
    (∀ e, getCleanPdfBytes env pdfBytes oldPassword = .error e →
      protectPdf env pdfBytes password oldPassword = .error e) ∧
    (∀ clean, getCleanPdfBytes env pdfBytes oldPassword = .ok clean →
      (env.encrypt clean password password = none →
        protectPdf env pdfBytes password oldPassword = .error encryptFailedErr) ∧
      (∀ enc, env.encrypt clean password password = some enc →
        (enc.isEmpty = true →
          protectPdf env pdfBytes password oldPassword = .error encryptFailedErr) ∧
        (enc.isEmpty = false →
          protectPdf env pdfBytes password oldPassword = .ok enc))) := by
  refine ⟨fun e he => ?_, fun clean hclean => ⟨fun hnone => ?_, fun enc henc => ⟨fun hemp => ?_, fun hne => ?_⟩⟩⟩
  · simp [protectPdf, he]
  · simp [protectPdf, hclean, hnone]
  · simp [protectPdf, hclean, henc, hemp]
  · simp [protectPdf, hclean, henc, hne]

/-- Witness for C6 at a concrete input: clean bytes are produced from `docA`
and the encryption helper returns the nonempty `[9]`, which Protect returns. -/
theorem c6_protectPdf_spec_witness :
    protectPdf envProtect (Bytes.raw [1]) "pw" none = .ok (Bytes.raw [9]) :=
  (((c6_protectPdf_spec envProtect (Bytes.raw [1]) "pw" none).2
      (PDFDocument.mk docA.pages).save rfl).2 (Bytes.raw [9]) rfl).2 rfl

/-- Witness for C4 at a concrete input: reorder `docA` as [1, 0, 1] (a
repeat) and rotate output position 0 by an extra 90. -/
theorem c4_organizePdf_spec_witness :
    ∃ out : PDFDocument,
      organizePdf envPlain (Bytes.raw [1]) [1, 0, 1]
          (fun k => if k = 0 then some 90 else none) none = .ok out.save ∧
      out.pages.length = [1, 0, 1].length ∧
      ∀ (k : Nat) (hk : k < [1, 0, 1].length) (ho : k < out.pages.length),
        out.pages.get ⟨k, ho⟩ =
          (fun src => { src with rotation :=
              src.rotation + ((if k = 0 then some 90 else none : Option Int)).getD 0 })
            (docA.pages.getD ([1, 0, 1].get ⟨k, hk⟩) default) :=
  c4_organizePdf_spec envPlain (Bytes.raw [1]) [1, 0, 1]
    (fun k => if k = 0 then some 90 else none) none docA rfl (by decide)

/-- The image-page fold of `createPdfFromImages` collects exactly the pages
of the successfully embedded files, in input order. -/
theorem imagesFold_eq_filterMap (env : Env) (options : ImageToPdfOptions)
    (files : List WFile) : ∀ acc : List Page,
    files.foldl (fun acc file =>
      match embedResult env file with
      | some (.ok image) => acc ++ [processImage image options]
      | _ => acc) acc =
    acc ++ (files.filterMap fun file =>
      match embedResult env file with
      | some (.ok image) => some (processImage image options)
      | _ => none) := by
  induction files with
  | nil => intro acc; simp
  | cons file rest ih =>
    intro acc
    rcases h : embedResult env file with _ | e | image
    · simpa [h] using ih acc
    · simpa [h] using ih acc
    · simp [h, ih (acc ++ [processImage image options])]

/-- The computed scale `min(min(availW/iw, availH/ih), 1)` never exceeds 1
and shrinks both image dimensions into the available area. -/
theorem scale_bounds (iw ih aw ah : ℚ) (hw : 0 < iw) (hh : 0 < ih) :
    min (min (aw / iw) (ah / ih)) 1 ≤ 1 ∧
    iw * min (min (aw / iw) (ah / ih)) 1 ≤ aw ∧
    ih * min (min (aw / iw) (ah / ih)) 1 ≤ ah := by
  refine ⟨min_le_right _ _, ?_, ?_⟩
  · have h1 : min (min (aw / iw) (ah / ih)) 1 ≤ aw / iw :=
      le_trans (min_le_left _ _) (min_le_left _ _)
    have h2 := (le_div_iff₀ hw).mp h1
    linarith
  · have h1 : min (min (aw / iw) (ah / ih)) 1 ≤ ah / ih :=
      le_trans (min_le_left _ _) (min_le_right _ _)
    have h2 := (le_div_iff₀ hh).mp h1
    linarith

/-- C7: every embedded image yields its page in the output document; with
`Fit` the page dimensions equal the image's native dimensions; with `A4` or
`Letter` the scale factor is at most 1 (never upscaled), both dimensions are
scaled by the same factor (aspect ratio preserved) to fit the 20-point
margins, and the image is centered on the page. -/
theorem c7_createPdfFromImages_sizing (image : EmbImage)
    (options : ImageToPdfOptions)
    (hw : 0 < image.width) (hh : 0 < image.height) :
    (∀ (env : Env) (files : List WFile), ∀ file ∈ files,
      embedResult env file = some (.ok image) →
      ∃ pages, createPdfFromImages env files options = (PDFDocument.mk pages).save ∧
        processImage image options ∈ pages) ∧
    (options.pageSize = .Fit →
      (processImage image options).width = image.width ∧
      (processImage image options).height = image.height) ∧
    (options.pageSize ≠ .Fit →
      ∃ pw ph s : ℚ,
        processImage image options =
          ⟨0, pw, ph, [⟨image.content, (pw - image.width * s) / 2,
            (ph - image.height * s) / 2, image.width * s, image.height * s⟩]⟩ ∧
        s = min (min ((pw - 40) / image.width) ((ph - 40) / image.height)) 1 ∧
        s ≤ 1 ∧ image.width * s ≤ pw - 40 ∧ image.height * s ≤ ph - 40) := by
  refine ⟨fun env files file hf hemb => ?_, fun hfit => ?_, ?_⟩
  · refine ⟨files.filterMap fun f =>
      match embedResult env f with
      | some (.ok img) => some (processImage img options)
      | _ => none, ?_, ?_⟩
    · unfold createPdfFromImages
      rw [imagesFold_eq_filterMap]
      simp
    · exact List.mem_filterMap.mpr ⟨file, hf, by simp [hemb]⟩
  · simp [processImage, hfit]
  · intro hnf
    refine ⟨(pageDims options).1, (pageDims options).2,
      min (min (((pageDims options).1 - 40) / image.width)
        (((pageDims options).2 - 40) / image.height)) 1, ?_, rfl,
      scale_bounds image.width image.height ((pageDims options).1 - 40)
        ((pageDims options).2 - 40) hw hh⟩
    simp only [processImage, if_neg hnf]
    norm_num

/-- Witness for C7 at a concrete input: an 800×600 image on a portrait A4
page is scaled by at most 1, fits the margins and is centered. -/
theorem c7_createPdfFromImages_sizing_witness :
    ∃ pw ph s : ℚ,
      processImage ⟨800, 600, 5⟩ ⟨PageSizeOpt.A4, OrientationOpt.Portrait⟩ =
        ⟨0, pw, ph, [⟨5, (pw - 800 * s) / 2, (ph - 600 * s) / 2,
          800 * s, 600 * s⟩]⟩ ∧
      s = min (min ((pw - 40) / 800) ((ph - 40) / 600)) 1 ∧
      s ≤ 1 ∧ 800 * s ≤ pw - 40 ∧ 600 * s ≤ ph - 40 :=
  (c7_createPdfFromImages_sizing ⟨800, 600, 5⟩ ⟨PageSizeOpt.A4, OrientationOpt.Portrait⟩
    (by norm_num) (by norm_num)).2.2 (by decide)

/-- C8: the encryption probe reports `true` iff the rendering library is
present and opening the file with no password raises the specific
`PasswordException`; a successful open, any other error, or an absent
library all yield `false`. -/
theorem c8_checkPdfPassword_iff (env : Env) (file : WFile) :
    checkPdfPassword env file = true ↔
      env.pdfjsAvailable = true ∧
        ∃ e, env.pdfjsOpen (Bytes.raw file.bytes) none = .error e ∧
          e.name = "PasswordException" := by
  unfold checkPdfPassword
  by_cases ha : env.pdfjsAvailable = true
  · rcases hop : env.pdfjsOpen (Bytes.raw file.bytes) none with e | d
    · simp only [ha, if_true, hop, beq_iff_eq, true_and]
      constructor
      · intro hb
        exact ⟨e, rfl, hb⟩
      · rintro ⟨e', he', hn⟩
        injection he' with h
        subst h
        exact hn
    · simp only [ha, if_true, hop, true_and]
      constructor
      · intro hb
        exact Bool.noConfusion hb
      · rintro ⟨e', he', -⟩
        exact Except.noConfusion he'
  · have ha' : env.pdfjsAvailable = false := by simpa using ha
    simp only [ha', Bool.false_eq_true, if_false]
    constructor
    · intro hb
      exact hb.elim
    · rintro ⟨havail, -⟩
      exact havail.elim

/-- C9 (evidence of the defect): with the rendering library available, the
thumbnail generator hands the caller's own buffer to `getDocument` and the
buffer comes back detached, whereas the rasterization fallback — which passes
a `slice(0)` clone — leaves the caller's buffer intact.  The caller's input
buffer is therefore not left unchanged by every operation. -/
theorem c9_generatePdfThumbnails_detaches_buffer :
    (generatePdfThumbnails envUnsup ⟨Bytes.raw [1, 2], false⟩ none).2.detached = true ∧
    (rasterizePdfBuf envUnsup ⟨Bytes.raw [1, 2], false⟩ none).2.detached = false :=
  ⟨rfl, rfl⟩

/-- C10: a file list with no embeddable JPEG/PNG (other types, failed
embeds, or no files at all) yields, without error, the serialized empty
document. -/
theorem c10_createPdfFromImages_empty (env : Env) (files : List WFile)
    (options : ImageToPdfOptions)
    (h : ∀ f ∈ files, ∀ img, embedResult env f ≠ some (.ok img)) :
    createPdfFromImages env files options = (PDFDocument.mk []).save := by
  unfold createPdfFromImages
  rw [imagesFold_eq_filterMap]
  have hnil : (files.filterMap fun file =>
      match embedResult env file with
      | some (.ok image) => some (processImage image options)
      | _ => none) = [] := by
    rw [List.filterMap_eq_nil_iff]
    intro f hf
    rcases hemb : embedResult env f with _ | e | img
    · simp
    · simp
    · exact absurd hemb (h f hf img)
  rw [hnil]
  rfl

/-- Witness for C10 at a concrete input: a skipped text file plus a PNG whose
embed fails produce the empty document. -/
theorem c10_createPdfFromImages_empty_witness :
    createPdfFromImages envPlain [txtFile, badPng]
      ⟨PageSizeOpt.A4, OrientationOpt.Portrait⟩ = (PDFDocument.mk []).save :=
  c10_createPdfFromImages_empty envPlain [txtFile, badPng]
    ⟨PageSizeOpt.A4, OrientationOpt.Portrait⟩ (by
      intro f hf img
      fin_cases hf
      · simp [show embedResult envPlain txtFile = none from rfl]
      · simp [show embedResult envPlain badPng =
          some (.error ⟨"Error", "bad png"⟩) from rfl])

end PdfUtils
